import Mathlib

/-!
Verification of the pynom2rdf scripts (isic2rdf.py, masterdata2rdf.py,
ieo_types.py, unit.py) against their natural-language specification.

The RDF layer is embedded shallowly: an rdflib term is a `Term` (URI or
literal with optional language tag), a graph is the list of triples passed
to `Graph.add`, in program order.  Python string operations are modelled on
`String` / `List Char`.  Interactive `input()` calls are modelled by an
explicit list of successive operator answers.  Python exceptions that abort
a function are modelled by `Except`.
-/

/-- RDF term: a URI reference or a literal with an optional language tag,
as produced by rdflib `URIRef` and `Literal`. -/
inductive Term where
  | uri : String → Term
  | lit : String → Option String → Term
deriving DecidableEq, Repr

/-- RDF triple, as passed to rdflib `Graph.add`. -/
abbrev Triple := Term × Term × Term

/-- RDF graph, modelled as the list of added triples in program order. -/
abbrev Graph := List Triple

/-- Namespace `http://purl.obolibrary.org/obo/` (BFO = OBI = IAO in the source). -/
def OBO (s : String) : Term := Term.uri ("http://purl.obolibrary.org/obo/" ++ s)

/-- Namespace `http://www.isterre.fr/ieo/`. -/
def IEO (s : String) : Term := Term.uri ("http://www.isterre.fr/ieo/" ++ s)

/-- Namespace of masterdata2rdf.py line 27: `'http://www.EcoInvent.org/EcoSpold02'.lower() + '#'`. -/
def ECO (s : String) : Term := Term.uri ("http://www.ecoinvent.org/ecospold02#" ++ s)

/-- Namespace `https://unstats.un.org/unsd/cr/registry/` of isic2rdf.py. -/
def ISICN (s : String) : Term := Term.uri ("https://unstats.un.org/unsd/cr/registry/" ++ s)

/-- rdflib `RDF.type`. -/
def RDF_type : Term := Term.uri "http://www.w3.org/1999/02/22-rdf-syntax-ns#type"

/-- rdflib `RDFS.label`. -/
def RDFS_label : Term := Term.uri "http://www.w3.org/2000/01/rdf-schema#label"

/-- rdflib `RDFS.subClassOf`. -/
def RDFS_subClassOf : Term := Term.uri "http://www.w3.org/2000/01/rdf-schema#subClassOf"

/-- rdflib `RDFS.comment`. -/
def RDFS_comment : Term := Term.uri "http://www.w3.org/2000/01/rdf-schema#comment"

/-- IAO.denotes = IAO.IAO_0000219. -/
def IAO_denotes : Term := OBO "IAO_0000219"

/-- BFO.has_part = BFO.BFO_0000051. -/
def BFO_has_part : Term := OBO "BFO_0000051"

/-- BFO.part_of = BFO.BFO_0000050. -/
def BFO_part_of : Term := OBO "BFO_0000050"

/-- SERVICE = OBI.OBI_0001173. -/
def SERVICE : Term := OBO "OBI_0001173"

/-- MATERIAL_ENTITY = BFO.BFO_0000040. -/
def MATERIAL_ENTITY : Term := OBO "BFO_0000040"

/-- REGISTRY_VERSION = IEO.IEO_0000043. -/
def REGISTRY_VERSION : Term := IEO "IEO_0000043"

/-- LCA_REGISTRY = IEO.IEO_0000044. -/
def LCA_REGISTRY : Term := IEO "IEO_0000044"

/-- REF_ACTIVITY = IEO.IEO_0000065. -/
def REF_ACTIVITY : Term := IEO "IEO_0000065"

/-- ACT_CRID = IEO.IEO_0000066 (named ACTITIVY_CRID in isic2rdf.py). -/
def ACT_CRID : Term := IEO "IEO_0000066"

/-- ACT_REGISTRY = IEO.IEO_0000067. -/
def ACT_REGISTRY : Term := IEO "IEO_0000067"

/-- REF_PRODUCT = IEO.IEO_0000068. -/
def REF_PRODUCT : Term := IEO "IEO_0000068"

/-- PROD_CRID = IEO.IEO_0000069. -/
def PROD_CRID : Term := IEO "IEO_0000069"

/-- PROD_REGISTRY = IEO.IEO_0000070. -/
def PROD_REGISTRY : Term := IEO "IEO_0000070"

/-- STAT_REGISTRY = IEO.IEO_0000071. -/
def STAT_REGISTRY : Term := IEO "IEO_0000071"

/-- IEO.to_sort. -/
def IEO_to_sort : Term := IEO "to_sort"

/-- English-tagged literal, `Literal(s, lang='en')`. -/
def litEn (s : String) : Term := Term.lit s (some "en")

/-- Plain literal with no language tag, `Literal(s)`. -/
def litPlain (s : String) : Term := Term.lit s none

/-- Literal with an explicit language tag, `Literal(s, lang=lang)`. -/
def litLang (s lang : String) : Term := Term.lit s (some lang)

/-! ## Identifier sanitizer: sup_spe_charact (isic2rdf.py lines 35-41) -/

/-- Underscore character, the replacement written as "_" in the source. -/
def underscore : Char := Char.ofNat 95

/-- Apostrophe character, code point 39. -/
def apostrophe : Char := Char.ofNat 39

/-- Backslash character, code point 92. -/
def backslash : Char := Char.ofNat 92

/-- Backtick character, code point 96. -/
def backtick : Char := Char.ofNat 96

/-- Character list the for loop of sup_spe_charact iterates over
(isic2rdf.py line 36): backslash, backtick, asterisk, space, greater-than,
hash, plus, hyphen, dot, bang, dollar, apostrophe. -/
def remove_chars : List Char :=
  [backslash, backtick, '*', ' ', '>', '#', '+', '-', '.', '!', '$', apostrophe]

/-- Character list of the elif membership test of sup_spe_charact
(isic2rdf.py line 39): the six bracket characters, code points
123, 125, 91, 93, 40, 41. -/
def strip_chars : List Char :=
  [Char.ofNat 123, Char.ofNat 125, Char.ofNat 91, Char.ofNat 93, Char.ofNat 40, Char.ofNat 41]

/-- Python `text.replace(old, new)` for a one-character pattern `old`:
every occurrence of `old` is replaced by the character list `new`. -/
def py_replace (text : List Char) (old : Char) (new : List Char) : List Char :=
  text.flatMap fun c => if c = old then new else [c]

/-- One iteration of the for loop of sup_spe_charact (isic2rdf.py lines
37-40) for loop character `c`: `if char in text: text = text.replace(char, "_")`
`elif char in ['{','}','[',']','(',')']: text = text.replace(char, "")`.
Note the elif tests the loop character `c` itself, which is always drawn
from `remove_chars`. -/
def sup_char_step (text : List Char) (c : Char) : List Char :=
  if c ∈ text then py_replace text c [underscore]
  else if c ∈ strip_chars then py_replace text c []
  else text

/-- Embedding of sup_spe_charact (isic2rdf.py lines 35-41) on the character
list of the input string: the for loop over `remove_chars` threading `text`. -/
def sup_spe_charact (text : List Char) : List Char :=
  remove_chars.foldl sup_char_step text

/-- sup_spe_charact on strings. -/
def sup_spe_charact_str (text : String) : String :=
  String.mk (sup_spe_charact text.data)

/-- Pointwise substitution corresponding to replacing every member of `cs`
by an underscore. -/
def subst_char (cs : List Char) (x : Char) : Char := if x ∈ cs then underscore else x

/-- Pointwise form of the whole sanitizer: replace members of `remove_chars`
by an underscore, keep every other character. -/
def san_char (x : Char) : Char := if x ∈ remove_chars then underscore else x

lemma py_replace_singleton (text : List Char) (c u : Char) :
    py_replace text c [u] = text.map fun x => if x = c then u else x := by
  induction text with
  | nil => rfl
  | cons a l ih =>
      by_cases h : a = c <;> simp [py_replace, List.flatMap_cons, h] <;>
        simpa [py_replace] using ih

lemma py_replace_not_mem (text : List Char) (c : Char) (new : List Char)
    (h : c ∉ text) : py_replace text c new = text := by
  induction text with
  | nil => rfl
  | cons a l ih =>
      have ha : a ≠ c := by rintro rfl; exact h (List.mem_cons_self a l)
      have hl : c ∉ l := fun hc => h (List.mem_cons_of_mem a hc)
      simp [py_replace, List.flatMap_cons, ha]
      simpa [py_replace] using ih hl

lemma sup_char_step_eq_map (text : List Char) (c : Char) :
    sup_char_step text c = text.map fun x => if x = c then underscore else x := by
  unfold sup_char_step
  by_cases h : c ∈ text
  · simp [h, py_replace_singleton]
  · have hmap : (text.map fun x => if x = c then underscore else x) = text := by
      have : ∀ x ∈ text, (if x = c then underscore else x) = x := by
        intro x hx
        have : x ≠ c := by rintro rfl; exact h hx
        simp [this]
      simp [List.map_congr_left this]
    by_cases hs : c ∈ strip_chars <;> simp [h, hs, py_replace_not_mem text c [] h, hmap]

lemma foldl_sup_char_step (cs : List Char) (text : List Char)
    (hu : underscore ∉ cs) : cs.foldl sup_char_step text = text.map (subst_char cs) := by
  induction cs generalizing text with
  | nil =>
      simp only [List.foldl_nil]
      have : ∀ x ∈ text, subst_char [] x = x := by intro x _; simp [subst_char]
      simp [List.map_congr_left this]
  | cons c cs ih =>
      have hu' : underscore ∉ cs := fun hc => hu (List.mem_cons_of_mem c hc)
      have huc : underscore ≠ c := by rintro rfl; exact hu (List.mem_cons_self _ _)
      simp only [List.foldl_cons]
      rw [sup_char_step_eq_map, ih _ hu', List.map_map]
      apply List.map_congr_left
      intro x _
      by_cases hx : x = c
      · subst hx; simp [subst_char, Function.comp, huc.symm, hu']
      · simp [subst_char, Function.comp, hx]

/-- Closed form of the sanitizer: it is the pointwise map of `san_char`. -/
lemma sup_spe_charact_eq_map (text : List Char) :
    sup_spe_charact text = text.map san_char := by
  have hu : underscore ∉ remove_chars := by decide
  have := foldl_sup_char_step remove_chars text hu
  simpa [sup_spe_charact, san_char, subst_char] using this

lemma san_char_idem (x : Char) : san_char (san_char x) = san_char x := by
  by_cases h : x ∈ remove_chars <;> simp [san_char, h]

lemma sup_spe_charact_idem_list (l : List Char) :
    sup_spe_charact (sup_spe_charact l) = sup_spe_charact l := by
  rw [sup_spe_charact_eq_map l, sup_spe_charact_eq_map, List.map_map]
  exact List.map_congr_left fun a _ => san_char_idem a

lemma sup_spe_charact_str_data (s : String) :
    (sup_spe_charact_str s).data = sup_spe_charact s.data := by
  rw [sup_spe_charact_str]

/-- C7: the sanitizer is idempotent: for every string x,
sanitize(sanitize(x)) equals sanitize(x). -/
theorem c7_sanitize_idempotent (x : String) :
    sup_spe_charact_str (sup_spe_charact_str x) = sup_spe_charact_str x := by
  apply String.ext
  rw [sup_spe_charact_str_data, sup_spe_charact_str_data]
  exact sup_spe_charact_idem_list x.data

/-- C10: the sanitizer never deletes any character: the output has exactly
the length of the input, is the pointwise image of `san_char` (each
character is kept unchanged or substituted by a single underscore), and
every bracket character of `strip_chars` is kept unchanged by `san_char`,
so every occurrence of one in the input survives in the output. -/
theorem c10_sanitize_never_deletes (s : List Char) :
    (sup_spe_charact s).length = s.length ∧
    sup_spe_charact s = s.map san_char ∧
    (∀ c, san_char c = c ∨ san_char c = underscore) ∧
    (∀ c ∈ strip_chars, san_char c = c) := by
  refine ⟨?_, sup_spe_charact_eq_map s, ?_, ?_⟩
  · rw [sup_spe_charact_eq_map]; exact List.length_map s san_char
  · intro c
    by_cases h : c ∈ remove_chars
    · right; simp [san_char, h]
    · left; simp [san_char, h]
  · intro c hc
    fin_cases hc <;> decide

/-- C10 witness: concrete evaluation on "Copper (99%)": same length, and
the opening parenthesis (code point 40) is kept by `san_char`. -/
theorem c10_sanitize_never_deletes_witness :
    (sup_spe_charact ("Copper (99%)".data)).length = ("Copper (99%)".data).length ∧
    san_char (Char.ofNat 40) = Char.ofNat 40 :=
  ⟨(c10_sanitize_never_deletes ("Copper (99%)".data)).1,
    (c10_sanitize_never_deletes []).2.2.2 (Char.ofNat 40) (by decide)⟩

/-- C4: evaluation showing the strip branch is dead: on "Copper (99%)" the
space is replaced by an underscore but the parentheses are NOT deleted, and
in general a strip character occurring in the input survives in the output. -/
theorem c4_sanitize_keeps_strip_chars :
    sup_spe_charact_str "Copper (99%)" = "Copper_(99%)" ∧
    Char.ofNat 40 ∈ (sup_spe_charact_str "Copper (99%)").data := by
  constructor <;> decide

/-! ## Database identity (masterdata2rdf.py lines 22-24, 53-57; isic2rdf.py line 62) -/

/-- Registry entry of the static table of masterdata2rdf.py lines 22-24. -/
structure Registry where
  reg_id : String
  label : String
deriving DecidableEq, Repr

/-- Static registry table keyed by XML namespace URI (masterdata2rdf.py lines 22-24). -/
def registries : List (String × Registry) :=
  [("http://www.EcoInvent.org/EcoSpold02",
    ⟨"de659012-50c4-4e96-b54a-fc781bf987ab", "EcoInvent"⟩)]

/-- Root attributes majorRelease and minorRelease read by the EcoSpold2 mappers. -/
structure XmlMeta where
  majorRelease : String
  minorRelease : String
deriving DecidableEq, Repr

/-- database_version of masterdata2rdf.py line 55 (same expression at lines 103, 163, 247). -/
def database_version (m : XmlMeta) : String :=
  "v" ++ m.majorRelease ++ "_" ++ m.minorRelease

/-- database_id of masterdata2rdf.py line 56 (same expression at lines 105, 165, 249). -/
def database_id (r : Registry) (m : XmlMeta) : String :=
  r.reg_id ++ database_version m

/-- database_label of define_registry, masterdata2rdf.py line 57 (with a "v"). -/
def registry_database_label (r : Registry) (m : XmlMeta) : String :=
  r.label ++ ("v" ++ m.majorRelease ++ "." ++ m.minorRelease)

/-- database_label of the three mappers, masterdata2rdf.py lines 104, 164,
248 (without a "v"). -/
def mapper_database_label (r : Registry) (m : XmlMeta) : String :=
  r.label ++ m.majorRelease ++ "." ++ m.minorRelease

/-- database_id of isic2crid, isic2rdf.py line 62. -/
def isic_database_id (version : String) : String := "ISIC_Rev" ++ version

/-- C6: the database identifier is computed by fixed concatenation:
registry_id + "v" + major + "_" + minor for EcoSpold2 input, and
"ISIC" + "_Rev" + version for ISIC input. -/
theorem c6_database_id_concatenation (r : Registry) (m : XmlMeta) (version : String) :
    database_id r m = r.reg_id ++ "v" ++ m.majorRelease ++ "_" ++ m.minorRelease ∧
    isic_database_id version = "ISIC" ++ "_Rev" ++ version := by
  constructor
  · simp [database_id, database_version, String.append_assoc]
  · show "ISIC_Rev" ++ version = ("ISIC" ++ "_Rev") ++ version
    rfl

/-! ## Operator prompts (isic2rdf.py lines 44-50 and 95-110) -/

/-- Embedding of verify_version (isic2rdf.py lines 44-50) over the stream
of successive operator answers, each represented by the result of
`int(input(...))` on it: `some n` when the parse succeeds, `none` when it
raises.  A parse failure prints a message and recursively re-prompts with
no retry cap; an exhausted stream, meaning the interaction never returned
a value within the given answers, is modelled as `none`. -/
def verify_version : List (Option Int) → Option Int
  | [] => none
  | some n :: _ => some n
  | none :: rest => verify_version rest

/-- Python `str.lower()` modelled as the character-wise lower-casing of the
string's characters. -/
def py_lower (s : String) : String := String.mk (s.data.map Char.toLower)

/-- Embedding of avoid_overwrite (isic2rdf.py lines 95-110, duplicated at
masterdata2rdf.py lines 341-356) over the stream of successive operator
answers: a lower-cased yes answer returns the output path, a no answer
consumes the next stream element as the replacement path, and any other
answer recursively re-prompts with no retry cap.  An exhausted stream is
modelled as `none`. -/
def avoid_overwrite (output_path : String) : List String → Option String
  | [] => none
  | answer :: rest =>
      if py_lower answer ∈ ["yes", "y"] then some output_path
      else if py_lower answer ∈ ["no", "n"] then
        match rest with
        | [] => none
        | new_path :: _ => some new_path
      else avoid_overwrite output_path rest

lemma verify_version_replicate (k : Nat) (v : Int) :
    verify_version (List.replicate k none ++ [some v]) = some v := by
  induction k with
  | zero => rfl
  | succ k ih => simpa [List.replicate_succ, verify_version] using ih

lemma avoid_overwrite_yes (p : String) (l : List String) :
    avoid_overwrite p ("yes" :: l) = some p := rfl

lemma avoid_overwrite_invalid_reprompts (p : String) (l : List String) :
    avoid_overwrite p ("maybe" :: l) = avoid_overwrite p l := rfl

lemma avoid_overwrite_replicate (k : Nat) (p : String) :
    avoid_overwrite p (List.replicate k "maybe" ++ ["yes"]) = some p := by
  induction k with
  | zero => exact avoid_overwrite_yes p []
  | succ k ih =>
      rw [List.replicate_succ, List.cons_append, avoid_overwrite_invalid_reprompts]
      exact ih

/-- C9 counterexample: the claim is false of the code: neither prompt has a
retry bound after which the condition surfaces as a fatal error — for every
candidate bound B there is a longer run of invalid answers after which the
function still returns a value normally. -/
theorem c9_counterexample_no_retry_bound :
    (¬ ∃ B : Nat, ∀ k : Nat, B < k →
      verify_version (List.replicate k none ++ [some 3]) = none) ∧
    (¬ ∃ B : Nat, ∀ k : Nat, B < k →
      avoid_overwrite "out.rdf" (List.replicate k "maybe" ++ ["yes"]) = none) := by
  constructor
  · rintro ⟨B, h⟩
    have h1 := h (B + 1) (Nat.lt_succ_self B)
    rw [verify_version_replicate] at h1
    exact Option.noConfusion h1
  · rintro ⟨B, h⟩
    have h1 := h (B + 1) (Nat.lt_succ_self B)
    rw [avoid_overwrite_replicate] at h1
    exact Option.noConfusion h1

/-- C9 amended: the re-prompt on invalid operator input is an unbounded
recursive retry with no cap: for every number k of consecutive invalid
answers, verify_version consumes them all and returns the first valid
integer, and avoid_overwrite likewise returns the output path on the first
recognized yes answer; no retry bound ever surfaces a fatal error. -/
theorem c9_amended_unbounded_recursive_reprompt (k : Nat) (v : Int) (p : String) :
    verify_version (List.replicate k none ++ [some v]) = some v ∧
    avoid_overwrite p (List.replicate k "maybe" ++ ["yes"]) = some p :=
  ⟨verify_version_replicate k v, avoid_overwrite_replicate k p⟩

/-! ## Registry resolution (masterdata2rdf.py lines 315-325) -/

/-- Outcome of resolving the registry identity of an EcoSpold2 file from
its XML namespace, masterdata2rdf.py lines 315-325.  A namespace present
in the static table returns its entry.  For an absent namespace the else
branch runs `registry['reg_id'] = input(...).lower()`: the local name
`registry` is only assigned in the if branch (line 318), so after the
first prompt answer is read the subscript assignment raises
UnboundLocalError and xml2graph aborts — the second prompt (registry
label) is never reached and no graph is built.  The abort is modelled as
`Except.error`. -/
def resolve_registry (file_namespace : String) : Except String Registry :=
  match registries.lookup file_namespace with
  | some r => Except.ok r
  | none => Except.error "UnboundLocalError: local variable registry referenced before assignment"

/-- C8: evaluation at the failing input: the known EcoSpold2 namespace
resolves from the static table, but an unknown namespace does not degrade
to operator input — resolution aborts with UnboundLocalError before the
registry label is ever requested. -/
theorem c8_unknown_namespace_aborts :
    resolve_registry "http://www.EcoInvent.org/EcoSpold02"
      = Except.ok ⟨"de659012-50c4-4e96-b54a-fc781bf987ab", "EcoInvent"⟩ ∧
    resolve_registry "http://example.org/unknown-registry"
      = Except.error "UnboundLocalError: local variable registry referenced before assignment" := by
  constructor <;> rfl

/-! ## Units (unit.py lines 23-27) and the product-type classifier -/

/-- Tuple ecoinvent_units['service'] of unit.py lines 23-25. -/
def ecoinvent_units_service : List String :=
  ["ha", "hour", "kWh", "km*year", "kg*day", "m*year", "m2*year", "m3*year",
   "metric ton*km", "l", "person*km"]

/-- Tuple ecoinvent_units['good'] of unit.py line 26. -/
def ecoinvent_units_good : List String := ["m3", "unit", "km"]

/-- Tuple ecoinvent_units['not_determined'] of unit.py line 27. -/
def ecoinvent_units_not_determined : List String := ["kg", "m", "m2", "MJ"]

/-- Product-type decision of inter2graph, masterdata2rdf.py lines 205-215:
if a property block is present the product is a material entity, elif the
unit name is a good unit it is a material entity, elif it is a service
unit it is a service, else it is to sort. -/
def inter_product_type (has_property : Bool) (unit_name : String) : Term :=
  if has_property then MATERIAL_ENTITY
  else if unit_name ∈ ecoinvent_units_good then MATERIAL_ENTITY
  else if unit_name ∈ ecoinvent_units_service then SERVICE
  else IEO_to_sort

/-- Product-type decision of elem2graph, masterdata2rdf.py lines 290-297:
if a property block is present the product is a material entity, elif the
unit name is a good unit it is a material entity, else it is to sort —
there is no service branch. -/
def elem_product_type (has_property : Bool) (unit_name : String) : Term :=
  if has_property then MATERIAL_ENTITY
  else if unit_name ∈ ecoinvent_units_good then MATERIAL_ENTITY
  else IEO_to_sort

/-! ## Upper-ontology bootstrap: nom_graph (ieo_types.py lines 11-62) -/

/-- CRID symbol, IAO.IAO_0000577. -/
def CRID_SYMBOL : Term := OBO "IAO_0000577"

/-- CRID, IAO.IAO_0000578. -/
def CRID : Term := OBO "IAO_0000578"

/-- CRID registry, IAO.IAO_0000579. -/
def CRID_REGISTRY : Term := OBO "IAO_0000579"

/-- Graph built by nom_graph of ieo_types.py lines 11-62, in add order:
the three IAO labels, the eight IEO labels, then the eight subClassOf
links.  Note ieo_types.py line 43 sets product_crid_label to
'reference product registry', so the IEO_0000069 label repeats the
IEO_0000070 one. -/
def nom_graph : Graph :=
  [(CRID_SYMBOL, RDFS_label, litEn "centrally registered identifier symbol"),
   (CRID, RDFS_label, litEn "centrally registered identifier"),
   (CRID_REGISTRY, RDFS_label, litEn "centrally registered identifier registry"),
   (LCA_REGISTRY, RDFS_label, litEn "life cycle database registry"),
   (REF_ACTIVITY, RDFS_label, litEn "reference activity"),
   (ACT_CRID, RDFS_label, litEn "reference activity identifier"),
   (ACT_REGISTRY, RDFS_label, litEn "reference activity registry"),
   (REF_PRODUCT, RDFS_label, litEn "reference product"),
   (PROD_CRID, RDFS_label, litEn "reference product registry"),
   (PROD_REGISTRY, RDFS_label, litEn "reference product registry"),
   (REGISTRY_VERSION, RDFS_label, litEn "registry version"),
   (REF_ACTIVITY, RDFS_subClassOf, CRID_SYMBOL),
   (REF_PRODUCT, RDFS_subClassOf, CRID_SYMBOL),
   (ACT_CRID, RDFS_subClassOf, CRID),
   (PROD_CRID, RDFS_subClassOf, CRID),
   (LCA_REGISTRY, RDFS_subClassOf, CRID_REGISTRY),
   (ACT_REGISTRY, RDFS_subClassOf, CRID_REGISTRY),
   (PROD_REGISTRY, RDFS_subClassOf, CRID_REGISTRY),
   (REGISTRY_VERSION, RDFS_subClassOf, CRID_SYMBOL)]

/-! ## EcoSpold2 record shapes and the define_registry wrapper -/

/-- One activityName element: its id attribute and its eco:name children as
(xml language attribute, text) pairs in document order. -/
structure ActivityRecord where
  id : String
  names : List (String × String)
deriving DecidableEq, Repr

/-- Triples added by the define_registry wrapper (masterdata2rdf.py lines
43-76) before the wrapped mapper runs, in add order.  The database label
here is the line 57 one, with a "v". -/
def define_registry_triples (r : Registry) (m : XmlMeta) : List Triple :=
  [(ECO r.reg_id, RDF_type, LCA_REGISTRY),
   (ECO (database_id r m), RDF_type, REGISTRY_VERSION),
   (ECO (database_id r m), RDFS_label, litPlain (registry_database_label r m)),
   (ECO (database_id r m), IAO_denotes, ECO r.reg_id),
   (IAO_denotes, RDFS_label, litEn "denotes"),
   (MATERIAL_ENTITY, RDFS_label, litEn "material entity"),
   (ECO (database_id r m), RDFS_label, litPlain (registry_database_label r m)),
   (SERVICE, RDFS_label, litEn "service"),
   (BFO_has_part, RDFS_label, litEn "has part"),
   (BFO_part_of, RDFS_label, litEn "part of")]

/-! ## Activity mapper: act2graph (masterdata2rdf.py lines 79-133) -/

/-- Triples added by act2graph before its record loop (masterdata2rdf.py
lines 106-112). -/
def act_header_triples (r : Registry) : List Triple :=
  [(ECO r.reg_id, RDFS_label, litEn r.label),
   (ECO "activityId", RDFS_subClassOf, ACT_CRID),
   (ECO "activityId", RDFS_label, litEn "EcoInvent activity identifier"),
   (ECO "activity_name", RDFS_subClassOf, REF_ACTIVITY),
   (ECO "activity_name", RDFS_label, litEn "EcoInvent activity label")]

/-- Triples added by one iteration of the activityName loop of act2graph
(masterdata2rdf.py lines 113-132): the CRID and bare-node types, the two
has_part edges and their two part_of inverses, then per eco:name child a
prefixed CRID label and an unprefixed bare-node label. -/
def act_record_triples (r : Registry) (m : XmlMeta) (rec : ActivityRecord) : List Triple :=
  [(ECO (rec.id ++ database_version m), RDF_type, ECO "activityId"),
   (ECO rec.id, RDF_type, ECO "activity_name"),
   (ECO (rec.id ++ database_version m), BFO_has_part, ECO (database_id r m)),
   (ECO (database_id r m), BFO_part_of, ECO (rec.id ++ database_version m)),
   (ECO (rec.id ++ database_version m), BFO_has_part, ECO rec.id),
   (ECO rec.id, BFO_part_of, ECO (rec.id ++ database_version m))]
  ++ rec.names.flatMap fun p =>
    [(ECO (rec.id ++ database_version m), RDFS_label,
      litLang (mapper_database_label r m ++ ":" ++ p.2) p.1),
     (ECO rec.id, RDFS_label, litLang p.2 p.1)]

/-- Embedding of the decorated act2graph (masterdata2rdf.py lines 79-133):
the wrapper triples, then the mapper header, then the record loop, appended
to the incoming graph. -/
def act2graph (g : Graph) (m : XmlMeta) (r : Registry) (recs : List ActivityRecord) : Graph :=
  g ++ define_registry_triples r m ++ act_header_triples r
    ++ recs.flatMap (act_record_triples r m)

/-- EcoInvent registry entry of the static table. -/
def ecoinvent_registry : Registry :=
  ⟨"de659012-50c4-4e96-b54a-fc781bf987ab", "EcoInvent"⟩

/-- Input of the C2 end-to-end scenario: majorRelease 3, minorRelease 1,
one activityName with one English name. -/
def c2_record : ActivityRecord :=
  ⟨"88d6c0aa-0053-4367-b0be-05e4b49ff3c5", [("en", "copper production, primary")]⟩

/-- Output graph of the C2 end-to-end scenario: act2graph on the bootstrap
graph, as xml2graph composes them. -/
def c2_graph : Graph :=
  act2graph nom_graph ⟨"3", "1"⟩ ecoinvent_registry [c2_record]

/-- C2 counterexample: the graph does NOT carry the claimed English label
"EcoInventv3.1:copper production, primary" on the CRID node — the CRID
label prefix of act2graph line 104 has no "v" between the registry label
and the major release. -/
theorem c2_counterexample_label_has_no_v :
    (ECO "88d6c0aa-0053-4367-b0be-05e4b49ff3c5v3_1", RDFS_label,
      litLang "EcoInventv3.1:copper production, primary" "en") ∉ c2_graph := by
  decide

/-- C2 amended: the output graph contains the CRID node with local name
88d6c0aa-0053-4367-b0be-05e4b49ff3c5v3_1, typed activityId, carrying the
English label "EcoInvent3.1:copper production, primary" (no "v"). -/
theorem c2_activity_mapper_end_to_end :
    (ECO "88d6c0aa-0053-4367-b0be-05e4b49ff3c5v3_1", RDF_type, ECO "activityId") ∈ c2_graph ∧
    (ECO "88d6c0aa-0053-4367-b0be-05e4b49ff3c5v3_1", RDFS_label,
      litLang "EcoInvent3.1:copper production, primary" "en") ∈ c2_graph := by
  constructor <;> decide

/-! ## Intermediate exchange mapper: inter2graph (masterdata2rdf.py lines 136-216) -/

/-- Apostrophe as a one-character string. -/
def apos_str : String := String.mk [apostrophe]

/-- Text of the to_sort comment literal of inter2graph, masterdata2rdf.py
lines 174-175 (a triple-quoted string ending in a newline and four
spaces). -/
def to_sort_comment : String :=
  "Some product cannot be automatically defined as a good (material entity) or a service by the masterdata2rdf.py script. In this case, the product is defined as a product to sort. It"
  ++ apos_str ++
  "s a temporary class that should not existed. Once the instance of this class are sorted, the product to sort class should be suppressed.\n    "

/-- Text of the to_sort comment literal of elem2graph, masterdata2rdf.py
lines 272-273 (same sentence, ending in a newline and eight spaces). -/
def to_sort_comment_elem : String :=
  "Some product cannot be automatically defined as a good (material entity) or a service by the masterdata2rdf.py script. In this case, the product is defined as a product to sort. It"
  ++ apos_str ++
  "s a temporary class that should not existed. Once the instance of this class are sorted, the product to sort class should be suppressed.\n        "

/-- One intermediateExchange element: its id, its eco:name children as
(language, text) pairs, whether an eco:property child exists, and the text
of its eco:unitName child. -/
structure IntermExchRecord where
  id : String
  names : List (String × String)
  has_property : Bool
  unit_name : String
deriving DecidableEq, Repr

/-- Triples added by inter2graph before its record loop (masterdata2rdf.py
lines 166-176). -/
def inter_header_triples (r : Registry) : List Triple :=
  [(ECO r.reg_id, RDFS_label, litEn r.label),
   (ECO "interm_exch_Id", RDFS_subClassOf, PROD_CRID),
   (ECO "interm_exch_Id", RDFS_label, litEn "EcoInvent intermediary exchange identifier"),
   (ECO "interm_exch_name", RDFS_subClassOf, REF_PRODUCT),
   (ECO "interm_exch_name", RDFS_label, litEn "EcoInvent intermediary exchange label"),
   (IEO_to_sort, RDFS_label, litEn "product to sort"),
   (IEO_to_sort, RDFS_comment, litEn to_sort_comment)]

/-- Triples added by one iteration of the intermediateExchange loop of
inter2graph (masterdata2rdf.py lines 177-215): types, the two has_part
edges with their part_of inverses, the denotes edge to the derived product
node, three label triples per eco:name child, then the one product-type
triple chosen by the if/elif/elif/else chain of lines 205-215. -/
def inter_record_triples (r : Registry) (m : XmlMeta) (rec : IntermExchRecord) : List Triple :=
  [(ECO (rec.id ++ database_version m), RDF_type, ECO "interm_exch_Id"),
   (ECO rec.id, RDF_type, ECO "interm_exch_name"),
   (ECO (rec.id ++ database_version m), BFO_has_part, ECO (database_id r m)),
   (ECO (database_id r m), BFO_part_of, ECO (rec.id ++ database_version m)),
   (ECO (rec.id ++ database_version m), BFO_has_part, ECO rec.id),
   (ECO rec.id, BFO_part_of, ECO (rec.id ++ database_version m)),
   (ECO rec.id, IAO_denotes, ECO (rec.id ++ "t_prod"))]
  ++ (rec.names.flatMap fun p =>
    [(ECO (rec.id ++ database_version m), RDFS_label,
      litLang (mapper_database_label r m ++ ":" ++ p.2) p.1),
     (ECO rec.id, RDFS_label, litLang p.2 p.1),
     (ECO (rec.id ++ "t_prod"), RDFS_label, litLang p.2 p.1)])
  ++ [(ECO (rec.id ++ "t_prod"), RDF_type,
      inter_product_type rec.has_property rec.unit_name)]

/-- Embedding of the decorated inter2graph (masterdata2rdf.py lines
136-216): the wrapper triples, then the mapper header, then the record
loop, appended to the incoming graph. -/
def inter2graph (g : Graph) (m : XmlMeta) (r : Registry) (recs : List IntermExchRecord) : Graph :=
  g ++ define_registry_triples r m ++ inter_header_triples r
    ++ recs.flatMap (inter_record_triples r m)

/-! ## Elementary exchange mapper: elem2graph (masterdata2rdf.py lines 220-298) -/

/-- Result of an ElementTree find for a compartment or subcompartment
element: its text and whether the element has child elements.  The inner
compartment and subcompartment elements of EcoSpold2 master data are
leaves, so `hasChildren` is false for them; an ElementTree element with no
children is falsy in Python. -/
structure CompElem where
  text : String
  hasChildren : Bool
deriving DecidableEq, Repr

/-- One elementaryExchange element: its id, its eco:name children as
(language, text) pairs, its per-language compartment and subcompartment
elements keyed by the xml:lang attribute, whether an eco:property child
exists, and the text of its eco:unitName child. -/
structure ElemExchRecord where
  id : String
  names : List (String × String)
  compartments : List (String × CompElem)
  subcompartments : List (String × CompElem)
  has_property : Bool
  unit_name : String
deriving DecidableEq, Repr

/-- Triples added by elem2graph before its record loop (masterdata2rdf.py
lines 250-256). -/
def elem_header_triples (r : Registry) : List Triple :=
  [(ECO r.reg_id, RDFS_label, litEn r.label),
   (ECO "elementary_exchange_id", RDFS_subClassOf, PROD_CRID),
   (ECO "elementary_exchange_id", RDFS_label, litEn "EcoInvent elementary exchange identifier"),
   (ECO "elem_exch_name", RDFS_subClassOf, REF_PRODUCT),
   (ECO "elem_exch_name", RDFS_label, litEn "EcoInvent elementary exchange label")]

/-- One iteration of the eco:name loop of elem2graph (masterdata2rdf.py
lines 275-289) for the name pair `p`.  Line 281 reads
`if (compartment_label and subcompartment_label) is not None:`.  Python
evaluates `a and b` to `a` when `a` is falsy and to `b` otherwise, and an
ElementTree element with no children is falsy.  Hence: a missing
compartment (None) skips the language silently; a present compartment
with children makes the test `subcompartment is not None`; a present
childless compartment makes the test True regardless, and when the
subcompartment is missing line 282 then evaluates `None.text` and raises
AttributeError, aborting the mapper. -/
def elem_name_triples (r : Registry) (m : XmlMeta) (rec : ElemExchRecord)
    (p : String × String) : Except String (List Triple) :=
  match rec.compartments.lookup p.1 with
  | none => Except.ok []
  | some ce =>
      match rec.subcompartments.lookup p.1 with
      | some se =>
          Except.ok
            [(ECO (rec.id ++ database_version m), RDFS_label,
              litLang (mapper_database_label r m ++ ":"
                ++ (p.2 ++ ", in " ++ ce.text ++ ", " ++ se.text)) p.1),
             (ECO rec.id, RDFS_label,
              litLang (p.2 ++ ", in " ++ ce.text ++ ", " ++ se.text) p.1),
             (ECO (rec.id ++ "t_prod"), RDFS_label,
              litLang (p.2 ++ ", in " ++ ce.text ++ ", " ++ se.text) p.1)]
      | none =>
          if ce.hasChildren then Except.ok []
          else Except.error "AttributeError: NoneType object has no attribute text"

/-- The eco:name loop of elem2graph over all name pairs, concatenating the
emitted label triples and propagating an AttributeError abort. -/
def elem_names_triples (r : Registry) (m : XmlMeta) (rec : ElemExchRecord) :
    List (String × String) → Except String (List Triple)
  | [] => Except.ok []
  | p :: ps =>
      match elem_name_triples r m rec p with
      | Except.error e => Except.error e
      | Except.ok t =>
          match elem_names_triples r m rec ps with
          | Except.error e => Except.error e
          | Except.ok ts => Except.ok (t ++ ts)

/-- Triples added before the name loop in one iteration of the
elementaryExchange loop (masterdata2rdf.py lines 257-274): types, part
edges, denotes edge, and the per-record to_sort label and comment. -/
def elem_record_fixed (r : Registry) (m : XmlMeta) (rec : ElemExchRecord) : List Triple :=
  [(ECO (rec.id ++ database_version m), RDF_type, ECO "elementary_exchange_id"),
   (ECO rec.id, RDF_type, ECO "elem_exch_name"),
   (ECO (rec.id ++ database_version m), BFO_has_part, ECO (database_id r m)),
   (ECO (database_id r m), BFO_part_of, ECO (rec.id ++ database_version m)),
   (ECO (rec.id ++ database_version m), BFO_has_part, ECO rec.id),
   (ECO rec.id, BFO_part_of, ECO (rec.id ++ database_version m)),
   (ECO rec.id, IAO_denotes, ECO (rec.id ++ "t_prod")),
   (IEO_to_sort, RDFS_label, litEn "product to sort"),
   (IEO_to_sort, RDFS_comment, litEn to_sort_comment_elem)]

/-- Triples of one iteration of the elementaryExchange loop
(masterdata2rdf.py lines 257-297): the prefix, the name-loop labels, then
the one product-type triple of the if/elif/else chain of lines 290-297. -/
def elem_record_triples (r : Registry) (m : XmlMeta) (rec : ElemExchRecord) :
    Except String (List Triple) :=
  match elem_names_triples r m rec rec.names with
  | Except.error e => Except.error e
  | Except.ok nameTs =>
      Except.ok (elem_record_fixed r m rec ++ nameTs
        ++ [(ECO (rec.id ++ "t_prod"), RDF_type,
            elem_product_type rec.has_property rec.unit_name)])

/-- The elementaryExchange loop over all records, concatenating each
record's triples and propagating an abort. -/
def elem_fold (r : Registry) (m : XmlMeta) :
    List ElemExchRecord → Except String (List Triple)
  | [] => Except.ok []
  | rec :: rest =>
      match elem_record_triples r m rec with
      | Except.error e => Except.error e
      | Except.ok t =>
          match elem_fold r m rest with
          | Except.error e => Except.error e
          | Except.ok ts => Except.ok (t ++ ts)

/-- Embedding of the decorated elem2graph (masterdata2rdf.py lines
220-298): the wrapper triples, the mapper header, then the record loop;
an AttributeError abort yields no graph at all. -/
def elem2graph (g : Graph) (m : XmlMeta) (r : Registry) (recs : List ElemExchRecord) :
    Except String Graph :=
  match elem_fold r m recs with
  | Except.error e => Except.error e
  | Except.ok ts =>
      Except.ok (g ++ define_registry_triples r m ++ elem_header_triples r ++ ts)

lemma elem_fold_ok_mem (r : Registry) (m : XmlMeta) :
    ∀ (recs : List ElemExchRecord) (ts : List Triple),
      elem_fold r m recs = Except.ok ts →
      ∀ rec ∈ recs, ∃ t, elem_record_triples r m rec = Except.ok t ∧ ∀ x ∈ t, x ∈ ts := by
  intro recs
  induction recs with
  | nil => intro ts _ rec hrec; cases hrec
  | cons a rest ih =>
      intro ts h rec hrec
      simp only [elem_fold] at h
      cases hr : elem_record_triples r m a with
      | error e => rw [hr] at h; cases h
      | ok t =>
          rw [hr] at h
          cases hf : elem_fold r m rest with
          | error e => rw [hf] at h; cases h
          | ok ts2 =>
              rw [hf] at h
              injection h with h
              subst h
              rcases List.mem_cons.mp hrec with rfl | hmem
              · exact ⟨t, hr, fun x hx => List.mem_append_left _ hx⟩
              · obtain ⟨t2, ht2, hsub⟩ := ih ts2 hf rec hmem
                exact ⟨t2, ht2, fun x hx => List.mem_append_right _ (hsub x hx)⟩

lemma elem_record_type_triple_mem (r : Registry) (m : XmlMeta) (rec : ElemExchRecord)
    (t : List Triple) (h : elem_record_triples r m rec = Except.ok t) :
    (ECO (rec.id ++ "t_prod"), RDF_type,
      elem_product_type rec.has_property rec.unit_name) ∈ t := by
  simp only [elem_record_triples] at h
  cases hn : elem_names_triples r m rec rec.names with
  | error e => rw [hn] at h; cases h
  | ok nameTs =>
      rw [hn] at h
      injection h with h
      subst h
      simp

lemma elem2graph_ok (g : Graph) (m : XmlMeta) (r : Registry)
    (recs : List ElemExchRecord) (G : Graph) (h : elem2graph g m r recs = Except.ok G) :
    ∃ ts, elem_fold r m recs = Except.ok ts ∧
      G = g ++ define_registry_triples r m ++ elem_header_triples r ++ ts := by
  simp only [elem2graph] at h
  cases hf : elem_fold r m recs with
  | error e => rw [hf] at h; cases h
  | ok ts => rw [hf] at h; injection h with h; exact ⟨ts, rfl, h.symm⟩

lemma inter_record_type_triple_mem (r : Registry) (m : XmlMeta) (rec : IntermExchRecord) :
    (ECO (rec.id ++ "t_prod"), RDF_type,
      inter_product_type rec.has_property rec.unit_name) ∈ inter_record_triples r m rec := by
  simp [inter_record_triples]

/-- C1: first-match product classification.  On an intermediate exchange:
a property block forces material entity; else a good unit forces material
entity; else a service unit gives service; else to sort.  On an elementary
exchange the same order applies with no service branch: after the property
and good-unit tests fail the product is to sort, never service.  With
has_property false and unit "kWh" the intermediate classification is
service and the elementary one is to sort.  The type triple each mapper
emits for the derived product node carries exactly this classification. -/
theorem c1_product_type_first_match :
    (∀ u : String, inter_product_type true u = MATERIAL_ENTITY ∧
      elem_product_type true u = MATERIAL_ENTITY) ∧
    (∀ (hp : Bool) (u : String), u ∈ ecoinvent_units_good →
      inter_product_type hp u = MATERIAL_ENTITY ∧ elem_product_type hp u = MATERIAL_ENTITY) ∧
    (∀ u : String, u ∉ ecoinvent_units_good → u ∈ ecoinvent_units_service →
      inter_product_type false u = SERVICE) ∧
    (∀ u : String, u ∉ ecoinvent_units_good → u ∉ ecoinvent_units_service →
      inter_product_type false u = IEO_to_sort) ∧
    (∀ u : String, u ∉ ecoinvent_units_good → elem_product_type false u = IEO_to_sort) ∧
    (∀ (hp : Bool) (u : String), elem_product_type hp u ≠ SERVICE) ∧
    inter_product_type false "kWh" = SERVICE ∧
    elem_product_type false "kWh" = IEO_to_sort ∧
    (∀ (g : Graph) (m : XmlMeta) (r : Registry) (recs : List IntermExchRecord)
      (rec : IntermExchRecord), rec ∈ recs →
      (ECO (rec.id ++ "t_prod"), RDF_type,
        inter_product_type rec.has_property rec.unit_name) ∈ inter2graph g m r recs) ∧
    (∀ (g : Graph) (m : XmlMeta) (r : Registry) (recs : List ElemExchRecord)
      (rec : ElemExchRecord) (G : Graph), rec ∈ recs →
      elem2graph g m r recs = Except.ok G →
      (ECO (rec.id ++ "t_prod"), RDF_type,
        elem_product_type rec.has_property rec.unit_name) ∈ G) := by
  refine ⟨?_, ?_, ?_, ?_, ?_, ?_, rfl, rfl, ?_, ?_⟩
  · intro u; exact ⟨rfl, rfl⟩
  · intro hp u hu
    cases hp <;> exact ⟨by simp [inter_product_type, hu], by simp [elem_product_type, hu]⟩
  · intro u hg hs; simp [inter_product_type, hg, hs]
  · intro u hg hs; simp [inter_product_type, hg, hs]
  · intro u hg; simp [elem_product_type, hg]
  · intro hp u
    cases hp <;> by_cases hu : u ∈ ecoinvent_units_good <;>
      simp [elem_product_type, hu] <;> decide
  · intro g m r recs rec hrec
    exact List.mem_append_right _
      (List.mem_flatMap.mpr ⟨rec, hrec, inter_record_type_triple_mem r m rec⟩)
  · intro g m r recs rec G hrec hok
    obtain ⟨ts, hf, rfl⟩ := elem2graph_ok g m r recs G hok
    obtain ⟨t, ht, hsub⟩ := elem_fold_ok_mem r m recs ts hf rec hrec
    exact List.mem_append_right _ (hsub _ (elem_record_type_triple_mem r m rec t ht))

/-- C1 witness: concrete classifications and concrete mapper runs — a
service unit off the good list classifies as service on an intermediate
exchange, a not-determined unit as to sort on an elementary exchange, and
the kWh product-type triples of one-record mapper runs. -/
theorem c1_product_type_first_match_witness :
    inter_product_type false "ha" = SERVICE ∧
    elem_product_type false "MJ" = IEO_to_sort ∧
    (ECO "aat_prod", RDF_type, SERVICE)
      ∈ inter2graph [] ⟨"3", "1"⟩ ecoinvent_registry [⟨"aa", [], false, "kWh"⟩] ∧
    (∃ G, elem2graph [] ⟨"3", "1"⟩ ecoinvent_registry [⟨"bb", [], [], [], false, "kWh"⟩]
        = Except.ok G ∧ (ECO "bbt_prod", RDF_type, IEO_to_sort) ∈ G) := by
  obtain ⟨h1, h2, h3, h4, h5, h6, h7, h8, h9, h10⟩ := c1_product_type_first_match
  refine ⟨h3 "ha" (by decide) (by decide), h5 "MJ" (by decide), ?_, ?_⟩
  · exact h9 [] ⟨"3", "1"⟩ ecoinvent_registry [⟨"aa", [], false, "kWh"⟩]
      ⟨"aa", [], false, "kWh"⟩ (List.mem_singleton_self _)
  · exact ⟨_, rfl, h10 [] ⟨"3", "1"⟩ ecoinvent_registry
      [⟨"bb", [], [], [], false, "kWh"⟩] ⟨"bb", [], [], [], false, "kWh"⟩ _
      (List.mem_singleton_self _) rfl⟩

/-- Elementary exchange of the C5 scenario with both compartment and
subcompartment present for English (both leaf elements). -/
def c5_rec_both : ElemExchRecord :=
  ⟨"f9749677-9c9f-4678-ab55-c607dfdc2cb9", [("en", "Methane")],
   [("en", ⟨"air", false⟩)], [("en", ⟨"low population density", false⟩)], false, "kg"⟩

/-- Elementary exchange of the C5 scenario with the compartment element
missing for English. -/
def c5_rec_no_comp : ElemExchRecord :=
  ⟨"f9749677-9c9f-4678-ab55-c607dfdc2cb9", [("en", "Methane")],
   [], [("en", ⟨"low population density", false⟩)], false, "kg"⟩

/-- Elementary exchange of the C5 scenario with the subcompartment element
missing for English while the (childless) compartment element is present. -/
def c5_rec_no_sub : ElemExchRecord :=
  ⟨"f9749677-9c9f-4678-ab55-c607dfdc2cb9", [("en", "Methane")],
   [("en", ⟨"air", false⟩)], [], false, "kg"⟩

/-- C5: evaluation of elem2graph at the three compartment configurations.
Both present: the composite label "Methane, in air, low population
density" is emitted on the bare node.  Compartment missing: the language
is silently skipped, no label triple at all is emitted for the product
node.  Subcompartment missing with a present childless compartment: the
mapper does not skip — it aborts with AttributeError, because line 281
evaluates `(compartment_label and subcompartment_label) is not None` to
True (a childless element is falsy, so `and` returns the compartment
element, which is not None) and line 282 then reads `.text` on None. -/
theorem c5_composite_label_both_required :
    (∃ G, elem2graph [] ⟨"3", "1"⟩ ecoinvent_registry [c5_rec_both] = Except.ok G ∧
      (ECO "f9749677-9c9f-4678-ab55-c607dfdc2cb9", RDFS_label,
        litLang "Methane, in air, low population density" "en") ∈ G) ∧
    (∃ G, elem2graph [] ⟨"3", "1"⟩ ecoinvent_registry [c5_rec_no_comp] = Except.ok G ∧
      ∀ x ∈ G, x.1 ≠ ECO "f9749677-9c9f-4678-ab55-c607dfdc2cb9t_prod" ∨
        x.2.1 ≠ RDFS_label) ∧
    elem2graph [] ⟨"3", "1"⟩ ecoinvent_registry [c5_rec_no_sub]
      = Except.error "AttributeError: NoneType object has no attribute text" := by
  refine ⟨⟨_, rfl, ?_⟩, ⟨_, rfl, ?_⟩, rfl⟩ <;> decide

/-! ## ISIC mapper: isic2crid (isic2rdf.py lines 53-92) -/

/-- Triples added by isic2crid before its row loop (isic2rdf.py lines
58-77), for the version string entered by the operator. -/
def isic_header_triples (version : String) : List Triple :=
  [(STAT_REGISTRY, RDFS_label, litEn "statistical classification registry"),
   (ISICN "ISIC", RDF_type, STAT_REGISTRY),
   (ISICN "ISIC", RDFS_label, litPlain "International Standard Industrial Classification"),
   (REGISTRY_VERSION, RDFS_label, litEn "registry version"),
   (ISICN (isic_database_id version), RDF_type, REGISTRY_VERSION),
   (ISICN (isic_database_id version), RDFS_label,
    litPlain ("International Standard Industrial Classification (ISIC) Rev" ++ version)),
   (ISICN (isic_database_id version), IAO_denotes, ISICN "ISIC"),
   (IAO_denotes, RDFS_label, litEn "denotes"),
   (ISICN "classification", RDFS_label, litEn ("ISIC Rev" ++ version ++ " identifier")),
   (ISICN "classification", RDFS_subClassOf, ACT_CRID),
   (ISICN "industrial_sector", RDFS_subClassOf, REF_ACTIVITY),
   (ISICN "industrial_sector", RDFS_label, litEn ("ISIC Rev" ++ version ++ " identifier label"))]

/-- Triples added by one iteration of the row loop of isic2crid
(isic2rdf.py lines 78-91) for the row (code, label): the sanitized-label
bare node, the CRID typed classification (its label added twice, lines 85
and 87), and the two has_part edges with their part_of inverses. -/
def isic_row_triples (version : String) (row : String × String) : List Triple :=
  [(ISICN (sup_spe_charact_str row.2), RDF_type, ISICN "industrial_sector"),
   (ISICN (sup_spe_charact_str row.2), RDFS_label, litEn row.2),
   (ISICN (isic_database_id version ++ "_" ++ row.1), RDFS_label,
    litEn (isic_database_id version ++ ":" ++ row.1 ++ " " ++ row.2)),
   (ISICN (isic_database_id version ++ "_" ++ row.1), RDF_type, ISICN "classification"),
   (ISICN (isic_database_id version ++ "_" ++ row.1), RDFS_label,
    litEn (isic_database_id version ++ ":" ++ row.1 ++ " " ++ row.2)),
   (ISICN (isic_database_id version ++ "_" ++ row.1), BFO_has_part,
    ISICN (isic_database_id version)),
   (ISICN (isic_database_id version), BFO_part_of,
    ISICN (isic_database_id version ++ "_" ++ row.1)),
   (ISICN (isic_database_id version ++ "_" ++ row.1), BFO_has_part,
    ISICN (sup_spe_charact_str row.2)),
   (ISICN (sup_spe_charact_str row.2), BFO_part_of,
    ISICN (isic_database_id version ++ "_" ++ row.1))]

/-- Embedding of isic2crid (isic2rdf.py lines 53-92): nom_graph, the
header triples, then the row loop over the data rows (code, label) in
file order. -/
def isic2crid (version : String) (rows : List (String × String)) : Graph :=
  nom_graph ++ isic_header_triples version ++ rows.flatMap (isic_row_triples version)

/-! ## C3 infrastructure: has-part / part-of structure of CRID instances -/

/-- Has-part / part-of structure required of a CRID instance node: its
has_part edges go exactly to the database-version node and the bare-entity
node, these are two distinct nodes, and both inverse part_of edges are in
the graph. -/
def crid_part_structure (G : Graph) (crid db bare : Term) : Prop :=
  (∀ o, (crid, BFO_has_part, o) ∈ G ↔ o = db ∨ o = bare) ∧
  db ≠ bare ∧
  (db, BFO_part_of, crid) ∈ G ∧
  (bare, BFO_part_of, crid) ∈ G

lemma str_append_cancel_left {a b c : String} (h : a ++ b = a ++ c) : b = c := by
  apply String.ext
  have hd := congrArg String.data h
  rw [String.data_append, String.data_append] at hd
  exact List.append_cancel_left hd

lemma str_append_cancel_right {a b c : String} (h : a ++ c = b ++ c) : a = b := by
  apply String.ext
  have hd := congrArg String.data h
  rw [String.data_append, String.data_append] at hd
  exact List.append_cancel_right hd

lemma ECO_inj {a b : String} (h : ECO a = ECO b) : a = b := by
  simp only [ECO, Term.uri.injEq] at h
  exact str_append_cancel_left h

lemma ISICN_inj {a b : String} (h : ISICN a = ISICN b) : a = b := by
  simp only [ISICN, Term.uri.injEq] at h
  exact str_append_cancel_left h

lemma no_haspart_of_pred_ne {l : List Triple}
    (h : ∀ t ∈ l, t.2.1 ≠ BFO_has_part) (s o : Term) : (s, BFO_has_part, o) ∉ l :=
  fun hm => h _ hm rfl

lemma type_ne_haspart : RDF_type ≠ BFO_has_part := by decide

lemma label_ne_haspart : RDFS_label ≠ BFO_has_part := by decide

lemma subclassof_ne_haspart : RDFS_subClassOf ≠ BFO_has_part := by decide

lemma comment_ne_haspart : RDFS_comment ≠ BFO_has_part := by decide

lemma denotes_ne_haspart : IAO_denotes ≠ BFO_has_part := by decide

lemma partof_ne_haspart : BFO_part_of ≠ BFO_has_part := by decide

lemma nom_graph_no_haspart : ∀ t ∈ nom_graph, t.2.1 ≠ BFO_has_part := by decide

lemma define_registry_no_haspart (r : Registry) (m : XmlMeta) :
    ∀ t ∈ define_registry_triples r m, t.2.1 ≠ BFO_has_part := by
  intro t ht
  simp only [define_registry_triples, List.mem_cons, List.not_mem_nil, or_false] at ht
  rcases ht with rfl | rfl | rfl | rfl | rfl | rfl | rfl | rfl | rfl | rfl <;>
    first
      | exact type_ne_haspart
      | exact label_ne_haspart
      | exact denotes_ne_haspart

lemma act_header_no_haspart (r : Registry) :
    ∀ t ∈ act_header_triples r, t.2.1 ≠ BFO_has_part := by
  intro t ht
  simp only [act_header_triples, List.mem_cons, List.not_mem_nil, or_false] at ht
  rcases ht with rfl | rfl | rfl | rfl | rfl <;>
    first
      | exact label_ne_haspart
      | exact subclassof_ne_haspart

lemma inter_header_no_haspart (r : Registry) :
    ∀ t ∈ inter_header_triples r, t.2.1 ≠ BFO_has_part := by
  intro t ht
  simp only [inter_header_triples, List.mem_cons, List.not_mem_nil, or_false] at ht
  rcases ht with rfl | rfl | rfl | rfl | rfl | rfl | rfl <;>
    first
      | exact label_ne_haspart
      | exact subclassof_ne_haspart
      | exact comment_ne_haspart

lemma elem_header_no_haspart (r : Registry) :
    ∀ t ∈ elem_header_triples r, t.2.1 ≠ BFO_has_part := by
  intro t ht
  simp only [elem_header_triples, List.mem_cons, List.not_mem_nil, or_false] at ht
  rcases ht with rfl | rfl | rfl | rfl | rfl <;>
    first
      | exact label_ne_haspart
      | exact subclassof_ne_haspart

lemma isic_header_no_haspart (version : String) :
    ∀ t ∈ isic_header_triples version, t.2.1 ≠ BFO_has_part := by
  intro t ht
  simp only [isic_header_triples, List.mem_cons, List.not_mem_nil, or_false] at ht
  rcases ht with rfl | rfl | rfl | rfl | rfl | rfl | rfl | rfl | rfl | rfl | rfl | rfl <;>
    first
      | exact type_ne_haspart
      | exact label_ne_haspart
      | exact denotes_ne_haspart
      | exact subclassof_ne_haspart

lemma not_mem_haspart_append {l1 l2 : List Triple} {s o : Term}
    (h1 : (s, BFO_has_part, o) ∉ l1) (h2 : (s, BFO_has_part, o) ∉ l2) :
    (s, BFO_has_part, o) ∉ l1 ++ l2 := by
  rw [List.mem_append]
  rintro (h | h)
  · exact h1 h
  · exact h2 h

lemma flatMap_haspart_char {α : Type} (recs : List α) (f : α → List Triple)
    (cridOf bareOf : α → Term) (db : Term) (rec : α) (hrec : rec ∈ recs)
    (H : ∀ a ∈ recs, ∀ s o : Term, (s, BFO_has_part, o) ∈ f a →
      s = cridOf a ∧ (o = db ∨ o = bareOf a))
    (Hself : (cridOf rec, BFO_has_part, db) ∈ f rec ∧
      (cridOf rec, BFO_has_part, bareOf rec) ∈ f rec)
    (Hinj : ∀ a ∈ recs, cridOf a = cridOf rec → bareOf a = bareOf rec) :
    ∀ o, (cridOf rec, BFO_has_part, o) ∈ recs.flatMap f ↔ o = db ∨ o = bareOf rec := by
  intro o
  constructor
  · intro h
    obtain ⟨a, ha, hmem⟩ := List.mem_flatMap.mp h
    obtain ⟨hs, hob⟩ := H a ha _ _ hmem
    rcases hob with h1 | h1
    · exact Or.inl h1
    · exact Or.inr (h1.trans (Hinj a ha hs.symm))
  · rintro (rfl | rfl)
    · exact List.mem_flatMap.mpr ⟨rec, hrec, Hself.1⟩
    · exact List.mem_flatMap.mpr ⟨rec, hrec, Hself.2⟩

lemma part_structure_of_append (pre rest : List Triple) (crid db bare : Term)
    (hpre : ∀ o, (crid, BFO_has_part, o) ∉ pre)
    (hchar : ∀ o, (crid, BFO_has_part, o) ∈ rest ↔ o = db ∨ o = bare)
    (hne : db ≠ bare)
    (hdb : (db, BFO_part_of, crid) ∈ rest)
    (hbare : (bare, BFO_part_of, crid) ∈ rest) :
    crid_part_structure (pre ++ rest) crid db bare := by
  refine ⟨fun o => ?_, hne, List.mem_append_right _ hdb, List.mem_append_right _ hbare⟩
  rw [List.mem_append]
  constructor
  · rintro (h | h)
    · exact absurd h (hpre o)
    · exact (hchar o).mp h
  · intro h
    exact Or.inr ((hchar o).mpr h)

lemma haspart_ne_type : BFO_has_part ≠ RDF_type := by decide

lemma haspart_ne_label : BFO_has_part ≠ RDFS_label := by decide

lemma haspart_ne_partof : BFO_has_part ≠ BFO_part_of := by decide

lemma haspart_ne_denotes : BFO_has_part ≠ IAO_denotes := by decide

lemma isic_row_haspart (version : String) (q : String × String) (s o : Term)
    (h : (s, BFO_has_part, o) ∈ isic_row_triples version q) :
    s = ISICN (isic_database_id version ++ "_" ++ q.1) ∧
    (o = ISICN (isic_database_id version) ∨ o = ISICN (sup_spe_charact_str q.2)) := by
  simp only [isic_row_triples, List.mem_cons, List.not_mem_nil, or_false, Prod.mk.injEq,
    haspart_ne_type, haspart_ne_label, haspart_ne_partof, false_and, and_false, false_or,
    or_false, true_and, and_true] at h
  rcases h with ⟨hs, ho⟩ | ⟨hs, ho⟩
  · exact ⟨hs, Or.inl ho⟩
  · exact ⟨hs, Or.inr ho⟩

lemma isic_row_self (version : String) (q : String × String) :
    (ISICN (isic_database_id version ++ "_" ++ q.1), BFO_has_part,
      ISICN (isic_database_id version)) ∈ isic_row_triples version q ∧
    (ISICN (isic_database_id version ++ "_" ++ q.1), BFO_has_part,
      ISICN (sup_spe_charact_str q.2)) ∈ isic_row_triples version q ∧
    (ISICN (isic_database_id version), BFO_part_of,
      ISICN (isic_database_id version ++ "_" ++ q.1)) ∈ isic_row_triples version q ∧
    (ISICN (sup_spe_charact_str q.2), BFO_part_of,
      ISICN (isic_database_id version ++ "_" ++ q.1)) ∈ isic_row_triples version q := by
  refine ⟨?_, ?_, ?_, ?_⟩ <;> simp [isic_row_triples]

lemma act_record_haspart (r : Registry) (m : XmlMeta) (a : ActivityRecord) (s o : Term)
    (h : (s, BFO_has_part, o) ∈ act_record_triples r m a) :
    s = ECO (a.id ++ database_version m) ∧
    (o = ECO (database_id r m) ∨ o = ECO a.id) := by
  simp only [act_record_triples, List.mem_append, List.mem_cons, List.not_mem_nil, or_false,
    List.mem_flatMap, Prod.mk.injEq, haspart_ne_type, haspart_ne_label, haspart_ne_partof,
    false_and, and_false, false_or, or_false, true_and, and_true, exists_false] at h
  rcases h with ⟨hs, ho⟩ | ⟨hs, ho⟩
  · exact ⟨hs, Or.inl ho⟩
  · exact ⟨hs, Or.inr ho⟩

lemma act_record_self (r : Registry) (m : XmlMeta) (a : ActivityRecord) :
    (ECO (a.id ++ database_version m), BFO_has_part, ECO (database_id r m))
      ∈ act_record_triples r m a ∧
    (ECO (a.id ++ database_version m), BFO_has_part, ECO a.id)
      ∈ act_record_triples r m a ∧
    (ECO (database_id r m), BFO_part_of, ECO (a.id ++ database_version m))
      ∈ act_record_triples r m a ∧
    (ECO a.id, BFO_part_of, ECO (a.id ++ database_version m))
      ∈ act_record_triples r m a := by
  refine ⟨?_, ?_, ?_, ?_⟩ <;> simp [act_record_triples]

lemma inter_record_haspart (r : Registry) (m : XmlMeta) (a : IntermExchRecord) (s o : Term)
    (h : (s, BFO_has_part, o) ∈ inter_record_triples r m a) :
    s = ECO (a.id ++ database_version m) ∧
    (o = ECO (database_id r m) ∨ o = ECO a.id) := by
  simp only [inter_record_triples, List.mem_append, List.mem_cons, List.not_mem_nil, or_false,
    List.mem_flatMap, Prod.mk.injEq, haspart_ne_type, haspart_ne_label, haspart_ne_partof,
    haspart_ne_denotes, false_and, and_false, false_or, or_false, true_and, and_true,
    exists_false] at h
  rcases h with ⟨hs, ho⟩ | ⟨hs, ho⟩
  · exact ⟨hs, Or.inl ho⟩
  · exact ⟨hs, Or.inr ho⟩

lemma inter_record_self (r : Registry) (m : XmlMeta) (a : IntermExchRecord) :
    (ECO (a.id ++ database_version m), BFO_has_part, ECO (database_id r m))
      ∈ inter_record_triples r m a ∧
    (ECO (a.id ++ database_version m), BFO_has_part, ECO a.id)
      ∈ inter_record_triples r m a ∧
    (ECO (database_id r m), BFO_part_of, ECO (a.id ++ database_version m))
      ∈ inter_record_triples r m a ∧
    (ECO a.id, BFO_part_of, ECO (a.id ++ database_version m))
      ∈ inter_record_triples r m a := by
  refine ⟨?_, ?_, ?_, ?_⟩ <;> simp [inter_record_triples]

lemma haspart_ne_comment : BFO_has_part ≠ RDFS_comment := by decide

lemma elem_name_triples_labels (r : Registry) (m : XmlMeta) (rec : ElemExchRecord)
    (p : String × String) (t : List Triple) (h : elem_name_triples r m rec p = Except.ok t) :
    ∀ x ∈ t, x.2.1 = RDFS_label := by
  simp only [elem_name_triples] at h
  split at h
  · injection h with h
    subst h
    intro x hx
    cases hx
  · split at h
    · injection h with h
      subst h
      intro x hx
      simp only [List.mem_cons, List.not_mem_nil, or_false] at hx
      rcases hx with rfl | rfl | rfl <;> rfl
    · split at h
      · injection h with h
        subst h
        intro x hx
        cases hx
      · cases h

lemma elem_names_triples_labels (r : Registry) (m : XmlMeta) (rec : ElemExchRecord) :
    ∀ (ps : List (String × String)) (l : List Triple),
      elem_names_triples r m rec ps = Except.ok l → ∀ x ∈ l, x.2.1 = RDFS_label := by
  intro ps
  induction ps with
  | nil =>
      intro l h x hx
      simp only [elem_names_triples] at h
      injection h with h
      subst h
      cases hx
  | cons p ps ih =>
      intro l h x hx
      simp only [elem_names_triples] at h
      cases hn : elem_name_triples r m rec p with
      | error e => rw [hn] at h; cases h
      | ok t =>
          rw [hn] at h
          cases hr : elem_names_triples r m rec ps with
          | error e => rw [hr] at h; cases h
          | ok ts =>
              rw [hr] at h
              injection h with h
              subst h
              rcases List.mem_append.mp hx with hx | hx
              · exact elem_name_triples_labels r m rec p t hn x hx
              · exact ih ts hr x hx

lemma elem_record_haspart (r : Registry) (m : XmlMeta) (rec : ElemExchRecord)
    (t : List Triple) (h : elem_record_triples r m rec = Except.ok t) (s o : Term)
    (hmem : (s, BFO_has_part, o) ∈ t) :
    s = ECO (rec.id ++ database_version m) ∧
    (o = ECO (database_id r m) ∨ o = ECO rec.id) := by
  simp only [elem_record_triples] at h
  cases hn : elem_names_triples r m rec rec.names with
  | error e => rw [hn] at h; cases h
  | ok nameTs =>
      rw [hn] at h
      injection h with h
      subst h
      rcases List.mem_append.mp hmem with hmem | hmem
      · rcases List.mem_append.mp hmem with hmem | hmem
        · simp only [elem_record_fixed, List.mem_cons, List.not_mem_nil, or_false,
            Prod.mk.injEq, haspart_ne_type, haspart_ne_label, haspart_ne_partof,
            haspart_ne_denotes, haspart_ne_comment, false_and, and_false, false_or,
            or_false, true_and, and_true] at hmem
          rcases hmem with ⟨hs, ho⟩ | ⟨hs, ho⟩
          · exact ⟨hs, Or.inl ho⟩
          · exact ⟨hs, Or.inr ho⟩
        · have hlab := elem_names_triples_labels r m rec rec.names nameTs hn _ hmem
          exact absurd hlab haspart_ne_label
      · simp only [List.mem_cons, List.not_mem_nil, or_false, Prod.mk.injEq,
          haspart_ne_type, false_and, and_false] at hmem

lemma elem_fold_mem_source (r : Registry) (m : XmlMeta) :
    ∀ (recs : List ElemExchRecord) (ts : List Triple),
      elem_fold r m recs = Except.ok ts →
      ∀ x ∈ ts, ∃ a ∈ recs, ∃ t, elem_record_triples r m a = Except.ok t ∧ x ∈ t := by
  intro recs
  induction recs with
  | nil =>
      intro ts h x hx
      simp only [elem_fold] at h
      injection h with h
      subst h
      cases hx
  | cons a rest ih =>
      intro ts h x hx
      simp only [elem_fold] at h
      cases hr : elem_record_triples r m a with
      | error e => rw [hr] at h; cases h
      | ok t =>
          rw [hr] at h
          cases hf : elem_fold r m rest with
          | error e => rw [hf] at h; cases h
          | ok ts2 =>
              rw [hf] at h
              injection h with h
              subst h
              rcases List.mem_append.mp hx with hx | hx
              · exact ⟨a, List.mem_cons_self a rest, t, hr, hx⟩
              · obtain ⟨b, hb, t2, ht2, hx2⟩ := ih ts2 hf x hx
                exact ⟨b, List.mem_cons_of_mem a hb, t2, ht2, hx2⟩

lemma elem_record_ok_members (r : Registry) (m : XmlMeta) (rec : ElemExchRecord)
    (t : List Triple) (h : elem_record_triples r m rec = Except.ok t) :
    (ECO (rec.id ++ database_version m), BFO_has_part, ECO (database_id r m)) ∈ t ∧
    (ECO (rec.id ++ database_version m), BFO_has_part, ECO rec.id) ∈ t ∧
    (ECO (database_id r m), BFO_part_of, ECO (rec.id ++ database_version m)) ∈ t ∧
    (ECO rec.id, BFO_part_of, ECO (rec.id ++ database_version m)) ∈ t := by
  simp only [elem_record_triples] at h
  cases hn : elem_names_triples r m rec rec.names with
  | error e => rw [hn] at h; cases h
  | ok nameTs =>
      rw [hn] at h
      injection h with h
      subst h
      refine ⟨?_, ?_, ?_, ?_⟩ <;>
        exact List.mem_append_left _ (List.mem_append_left _ (by simp [elem_record_fixed]))

/-- C3: every CRID instance produced by the four mappers has exactly two
has_part edges — one to the database-version node and one to the bare
entity node, which are distinct — and the graph contains both inverse
part_of edges, the relation being added symmetrically.  The side
conditions ask only that the incoming graph carries no has_part edge from
this CRID, that the bare node differs from the version node, and (for
ISIC) that rows sharing this row's code sanitize to the same bare label. -/
theorem c3_crid_haspart_partof_symmetric :
    (∀ (version : String) (rows : List (String × String)) (code label : String),
      (code, label) ∈ rows →
      (∀ q ∈ rows, q.1 = code → sup_spe_charact_str q.2 = sup_spe_charact_str label) →
      sup_spe_charact_str label ≠ isic_database_id version →
      crid_part_structure (isic2crid version rows)
        (ISICN (isic_database_id version ++ "_" ++ code))
        (ISICN (isic_database_id version))
        (ISICN (sup_spe_charact_str label))) ∧
    (∀ (g : Graph) (m : XmlMeta) (r : Registry) (recs : List ActivityRecord)
      (rec : ActivityRecord), rec ∈ recs →
      (∀ o, (ECO (rec.id ++ database_version m), BFO_has_part, o) ∉ g) →
      database_id r m ≠ rec.id →
      crid_part_structure (act2graph g m r recs)
        (ECO (rec.id ++ database_version m)) (ECO (database_id r m)) (ECO rec.id)) ∧
    (∀ (g : Graph) (m : XmlMeta) (r : Registry) (recs : List IntermExchRecord)
      (rec : IntermExchRecord), rec ∈ recs →
      (∀ o, (ECO (rec.id ++ database_version m), BFO_has_part, o) ∉ g) →
      database_id r m ≠ rec.id →
      crid_part_structure (inter2graph g m r recs)
        (ECO (rec.id ++ database_version m)) (ECO (database_id r m)) (ECO rec.id)) ∧
    (∀ (g : Graph) (m : XmlMeta) (r : Registry) (recs : List ElemExchRecord)
      (rec : ElemExchRecord) (G : Graph), rec ∈ recs →
      elem2graph g m r recs = Except.ok G →
      (∀ o, (ECO (rec.id ++ database_version m), BFO_has_part, o) ∉ g) →
      database_id r m ≠ rec.id →
      crid_part_structure G
        (ECO (rec.id ++ database_version m)) (ECO (database_id r m)) (ECO rec.id)) := by
  refine ⟨?_, ?_, ?_, ?_⟩
  · intro version rows code label hrow hlab hne
    rw [isic2crid]
    refine part_structure_of_append _ _ _ _ _ ?_ ?_ ?_ ?_ ?_
    · intro o
      exact not_mem_haspart_append
        (no_haspart_of_pred_ne nom_graph_no_haspart _ o)
        (no_haspart_of_pred_ne (isic_header_no_haspart version) _ o)
    · exact flatMap_haspart_char rows (isic_row_triples version)
        (fun q => ISICN (isic_database_id version ++ "_" ++ q.1))
        (fun q => ISICN (sup_spe_charact_str q.2))
        (ISICN (isic_database_id version)) (code, label) hrow
        (fun a _ s o hm => isic_row_haspart version a s o hm)
        ⟨(isic_row_self version (code, label)).1, (isic_row_self version (code, label)).2.1⟩
        (fun a ha heq => congrArg ISICN
          (hlab a ha (str_append_cancel_left (ISICN_inj heq))))
    · exact fun he => hne (ISICN_inj he).symm
    · exact List.mem_flatMap.mpr ⟨(code, label), hrow, (isic_row_self version _).2.2.1⟩
    · exact List.mem_flatMap.mpr ⟨(code, label), hrow, (isic_row_self version _).2.2.2⟩
  · intro g m r recs rec hrec hg hne
    rw [act2graph]
    refine part_structure_of_append _ _ _ _ _ ?_ ?_ ?_ ?_ ?_
    · intro o
      exact not_mem_haspart_append
        (not_mem_haspart_append (hg o)
          (no_haspart_of_pred_ne (define_registry_no_haspart r m) _ o))
        (no_haspart_of_pred_ne (act_header_no_haspart r) _ o)
    · exact flatMap_haspart_char recs (act_record_triples r m)
        (fun a => ECO (a.id ++ database_version m)) (fun a => ECO a.id)
        (ECO (database_id r m)) rec hrec
        (fun a _ s o hm => act_record_haspart r m a s o hm)
        ⟨(act_record_self r m rec).1, (act_record_self r m rec).2.1⟩
        (fun a _ heq => congrArg ECO (str_append_cancel_right (ECO_inj heq)))
    · exact fun he => hne (ECO_inj he)
    · exact List.mem_flatMap.mpr ⟨rec, hrec, (act_record_self r m rec).2.2.1⟩
    · exact List.mem_flatMap.mpr ⟨rec, hrec, (act_record_self r m rec).2.2.2⟩
  · intro g m r recs rec hrec hg hne
    rw [inter2graph]
    refine part_structure_of_append _ _ _ _ _ ?_ ?_ ?_ ?_ ?_
    · intro o
      exact not_mem_haspart_append
        (not_mem_haspart_append (hg o)
          (no_haspart_of_pred_ne (define_registry_no_haspart r m) _ o))
        (no_haspart_of_pred_ne (inter_header_no_haspart r) _ o)
    · exact flatMap_haspart_char recs (inter_record_triples r m)
        (fun a => ECO (a.id ++ database_version m)) (fun a => ECO a.id)
        (ECO (database_id r m)) rec hrec
        (fun a _ s o hm => inter_record_haspart r m a s o hm)
        ⟨(inter_record_self r m rec).1, (inter_record_self r m rec).2.1⟩
        (fun a _ heq => congrArg ECO (str_append_cancel_right (ECO_inj heq)))
    · exact fun he => hne (ECO_inj he)
    · exact List.mem_flatMap.mpr ⟨rec, hrec, (inter_record_self r m rec).2.2.1⟩
    · exact List.mem_flatMap.mpr ⟨rec, hrec, (inter_record_self r m rec).2.2.2⟩
  · intro g m r recs rec G hrec hok hg hne
    obtain ⟨ts, hf, rfl⟩ := elem2graph_ok g m r recs G hok
    obtain ⟨t, ht, hsub⟩ := elem_fold_ok_mem r m recs ts hf rec hrec
    have hm := elem_record_ok_members r m rec t ht
    refine part_structure_of_append _ _ _ _ _ ?_ ?_ ?_ ?_ ?_
    · intro o
      exact not_mem_haspart_append
        (not_mem_haspart_append (hg o)
          (no_haspart_of_pred_ne (define_registry_no_haspart r m) _ o))
        (no_haspart_of_pred_ne (elem_header_no_haspart r) _ o)
    · intro o
      constructor
      · intro hmem
        obtain ⟨a, _, t2, ht2, hx⟩ := elem_fold_mem_source r m recs ts hf _ hmem
        obtain ⟨hs, ho⟩ := elem_record_haspart r m a t2 ht2 _ _ hx
        rcases ho with ho | ho
        · exact Or.inl ho
        · right
          have hid : a.id = rec.id := (str_append_cancel_right (ECO_inj hs)).symm
          rw [ho, hid]
      · rintro (rfl | rfl)
        · exact hsub _ hm.1
        · exact hsub _ hm.2.1
    · exact fun he => hne (ECO_inj he)
    · exact hsub _ hm.2.2.1
    · exact hsub _ hm.2.2.2

/-- C3 witness: the structure at concrete one-record runs of all four
mappers. -/
theorem c3_crid_haspart_partof_symmetric_witness :
    crid_part_structure (isic2crid "4" [("01", "Crop production")])
      (ISICN (isic_database_id "4" ++ "_" ++ "01"))
      (ISICN (isic_database_id "4"))
      (ISICN (sup_spe_charact_str "Crop production")) ∧
    crid_part_structure
      (act2graph [] ⟨"3", "1"⟩ ecoinvent_registry [⟨"aid", [("en", "smelting")]⟩])
      (ECO ("aid" ++ database_version ⟨"3", "1"⟩))
      (ECO (database_id ecoinvent_registry ⟨"3", "1"⟩)) (ECO "aid") ∧
    crid_part_structure
      (inter2graph [] ⟨"3", "1"⟩ ecoinvent_registry [⟨"iid", [], false, "kg"⟩])
      (ECO ("iid" ++ database_version ⟨"3", "1"⟩))
      (ECO (database_id ecoinvent_registry ⟨"3", "1"⟩)) (ECO "iid") ∧
    (∃ G, elem2graph [] ⟨"3", "1"⟩ ecoinvent_registry [⟨"eid", [], [], [], false, "kg"⟩]
        = Except.ok G ∧
      crid_part_structure G (ECO ("eid" ++ database_version ⟨"3", "1"⟩))
        (ECO (database_id ecoinvent_registry ⟨"3", "1"⟩)) (ECO "eid")) := by
  obtain ⟨h1, h2, h3, h4⟩ := c3_crid_haspart_partof_symmetric
  refine ⟨?_, ?_, ?_, ?_⟩
  · exact h1 "4" [("01", "Crop production")] "01" "Crop production"
      (by decide) (by decide) (by decide)
  · exact h2 [] ⟨"3", "1"⟩ ecoinvent_registry [⟨"aid", [("en", "smelting")]⟩]
      ⟨"aid", [("en", "smelting")]⟩ (by decide) (fun o => List.not_mem_nil _) (by decide)
  · exact h3 [] ⟨"3", "1"⟩ ecoinvent_registry [⟨"iid", [], false, "kg"⟩]
      ⟨"iid", [], false, "kg"⟩ (by decide) (fun o => List.not_mem_nil _) (by decide)
  · exact ⟨_, rfl, h4 [] ⟨"3", "1"⟩ ecoinvent_registry [⟨"eid", [], [], [], false, "kg"⟩]
      ⟨"eid", [], [], [], false, "kg"⟩ _ (by decide) rfl
      (fun o => List.not_mem_nil _) (by decide)⟩

/-- C6 witness: the concatenations at the EcoInvent 3.1 registry and ISIC
revision 4. -/
theorem c6_database_id_concatenation_witness :
    database_id ecoinvent_registry ⟨"3", "1"⟩
      = "de659012-50c4-4e96-b54a-fc781bf987ab" ++ "v" ++ "3" ++ "_" ++ "1" ∧
    isic_database_id "4" = "ISIC" ++ "_Rev" ++ "4" :=
  c6_database_id_concatenation ecoinvent_registry ⟨"3", "1"⟩ "4"

/-- C7 witness: idempotence at a concrete label. -/
theorem c7_sanitize_idempotent_witness :
    sup_spe_charact_str (sup_spe_charact_str "Copper (99%)")
      = sup_spe_charact_str "Copper (99%)" :=
  c7_sanitize_idempotent "Copper (99%)"

/-- C9 witness: two invalid answers followed by a valid one still succeed
at both prompts. -/
theorem c9_amended_unbounded_recursive_reprompt_witness :
    verify_version (List.replicate 2 none ++ [some 7]) = some 7 ∧
    avoid_overwrite "out.rdf" (List.replicate 2 "maybe" ++ ["yes"]) = some "out.rdf" :=
  c9_amended_unbounded_recursive_reprompt 2 7 "out.rdf"
